import Mathlib

/-!
Verification of the GKE-Terraform cluster-creation wizard
(`pkg/jx/cmd/create_cluster_gke_terraform.go`).

The wizard is shallowly embedded as pure Lean functions over an explicit
environment (`Env`) that supplies the answers of the interactive prompts and
the results of the external `gcloud` invocations.  A run produces the ordered
list of externally visible events (prompt displays and external commands)
together with an outcome that mirrors the Go function result: `ok` for a
`nil` error, `fail msg` for a non-nil error, and `panicked` for a Go runtime
panic (the out-of-bounds slice index in `getGoogleProjectId`).
-/

namespace GKETerraform

/-- Externally visible actions of the wizard, in the order they happen:
interactive prompts shown to the user and external command invocations. -/
inductive Event where
  | promptConfirmContinue
  | promptConfirmCreateProject
  | promptSelectProject (options : List String)
  | promptSelectZone (options : List String)
  | promptSelectMachineType (options : List String)
  | promptInputMinNodes
  | promptInputMaxNodes
  | runCmd (cmd : String) (args : List String)
  | getOutput (dir : String) (cmd : String) (args : List String)
deriving DecidableEq

/-- Result of a Go function call: `ok` models a `nil` error, `fail` a non-nil
error with its message, `panicked` a runtime panic. -/
inductive GoRes (α : Type) where
  | ok (val : α)
  | fail (msg : String)
  | panicked
deriving DecidableEq

/-- One step of the wizard: the events it emits and its result. -/
abbrev Step (α : Type) := List Event × GoRes α

/-- Prepend the given events to a step. -/
def Step.tag (evs : List Event) (x : Step α) : Step α :=
  (evs ++ x.1, x.2)

/-- Sequencing with early return, as the repeated
`if err != nil { return err }` pattern of the source. -/
def Step.bind (x : Step α) (f : α → Step β) : Step β :=
  match x.2 with
  | .ok a => (x.1 ++ (f a).1, (f a).2)
  | .fail e => (x.1, .fail e)
  | .panicked => (x.1, .panicked)

/-- The command flags of `CreateClusterGKETerraformFlags`. -/
structure Flags where
  autoUpgrade : Bool
  clusterName : String
  clusterIpv4Cidr : String
  clusterVersion : String
  diskSize : String
  imageType : String
  machineType : String
  minNumOfNodes : String
  maxNumOfNodes : String
  projectId : String
  skipLogin : Bool
  zone : String
  namespaceFlag : String
  labels : String
deriving DecidableEq

/-- The environment of one wizard run: the answers the interactive prompts
would produce and the results of the external `gcloud` invocations.  Prompt
answers are `Except` values because `survey.AskOne` returns an error; where
the source discards that error the embedding does too.

The fields `sillyName`, `googleZones`, `googleMachineTypes` and `currentUser`
stand for repository code that is outside `src/`:
`randomdata.SillyName()` (the generated cluster name before lower-casing),
`gke.GetGoogleZones()` (modelled from the spec: a live provider query for the
zone list, fallible per its call-site signature),
`gke.GetGoogleMachineTypes()` (modelled from the spec: a live provider query
for the machine-type list; its call site has no error channel), and
`sanitizeLabel(user.Username)` (modelled from the spec: `currentUser` is the
already sanitized username of the current OS user, or `none` when
`os_user.Current()` fails or yields a nil user). -/
structure Env where
  confirmContinue : Except Unit Bool
  authResult : Except String Unit
  projectsListOutput : Except String String
  confirmCreateProject : Except String Bool
  selectProject : Except String String
  setProjectResult : Except String Unit
  sillyName : String
  googleZones : Except String (List String)
  selectZone : Except String String
  googleMachineTypes : List String
  selectMachineType : Except String String
  inputMinNodes : Except Unit String
  inputMaxNodes : Except Unit String
  saListOutput : Except String String
  permissionsOutput : Except String String
  createSAResult : Except String Unit
  bindRole : String → Except String Unit
  currentUser : Option String

/-- Modelled from the spec: the header marker `CLUSTER_LIST_HEADER` of the
project-listing output, defined elsewhere in the repository outside `src/`;
the spec calls the lines containing it header lines. -/
def CLUSTER_LIST_HEADER : String := "PROJECT_ID"

/-- The fixed list of IAM roles bound to a freshly created service account
(`requiredServiceAccountRoles` in the source). -/
def requiredServiceAccountRoles : List String :=
  ["roles/compute.instanceAdmin.v1", "roles/iam.serviceAccountActor",
   "roles/container.clusterAdmin"]

/-- Go `strings.Contains`. -/
def goContains (s sub : String) : Bool :=
  s.data.tails.any (fun t => sub.data.isPrefixOf t)

/-- Worker for `goFields`: splits a character list around whitespace runs,
accumulating the current word reversed. -/
def fieldsGo : List Char → List Char → List String
  | [], acc => if acc = [] then [] else [⟨acc.reverse⟩]
  | c :: cs, acc =>
    if c.isWhitespace then
      if acc = [] then fieldsGo cs [] else ⟨acc.reverse⟩ :: fieldsGo cs []
    else fieldsGo cs (c :: acc)

/-- Go `strings.Fields`: the whitespace-separated fields of a string. -/
def goFields (s : String) : List String := fieldsGo s.data []

/-- Worker for `goSplitNewline`. -/
def splitLinesGo : List Char → List Char → List String
  | [], acc => [⟨acc.reverse⟩]
  | c :: cs, acc =>
    if c = '\n' then ⟨acc.reverse⟩ :: splitLinesGo cs []
    else splitLinesGo cs (c :: acc)

/-- Go `strings.Split(s, "\n")`. -/
def goSplitNewline (s : String) : List String := splitLinesGo s.data []

/-- Go `strings.ToLower` (ASCII-faithful). -/
def strToLower (s : String) : String := ⟨s.data.map Char.toLower⟩

/-- The parsing loop of `getGoogleProjectId`: for every line that does not
contain the header marker, take its first whitespace-delimited field; `none`
models the Go panic of `fields[0]` on an empty field list. -/
def parseProjectLines : List String → Option (List String)
  | [] => some []
  | l :: rest =>
    if goContains l CLUSTER_LIST_HEADER then parseProjectLines rest
    else
      match goFields l with
      | [] => none
      | f :: _ => (parseProjectLines rest).map (fun ps => f :: ps)

/-- Error of `getGoogleProjectId` when the user declines creating a project. -/
def noProjectDeclineMsg : String :=
  "no google project to create cluster in, please manual create one and rerun this wizard"

/-- Error of `getGoogleProjectId` when the user accepts creating a project. -/
def notImplementedMsg : String :=
  "auto creating projects not yet implemented, please manually create one and rerun the wizard"

/-- Error of `getGoogleProjectId` when the final selection is empty. -/
def noProjectSelectedMsg : String :=
  "no Google Cloud Project to create cluster in, please manual create one and rerun this wizard"

/-- Embedding of `getGoogleProjectId`: lists the projects, parses the output
line by line, then selects a project (offering to create one when none
exist). -/
def getGoogleProjectId (env : Env) : Step String :=
  let listEv := Event.getOutput "" "gcloud" ["projects", "list"]
  match env.projectsListOutput with
  | .error e => ([listEv], .fail e)
  | .ok out =>
    match parseProjectLines (goSplitNewline out) with
    | none => ([listEv], .panicked)
    | some existingProjects =>
      match existingProjects with
      | [] =>
        match env.confirmCreateProject with
        | .error e => ([listEv, .promptConfirmCreateProject], .fail e)
        | .ok flag =>
          if flag = false then
            ([listEv, .promptConfirmCreateProject], .fail noProjectDeclineMsg)
          else
            ([listEv, .promptConfirmCreateProject], .fail notImplementedMsg)
      | [p] =>
        if p = "" then ([listEv], .fail noProjectSelectedMsg)
        else ([listEv], .ok p)
      | ps =>
        match env.selectProject with
        | .error e => ([listEv, .promptSelectProject ps], .fail e)
        | .ok projectId =>
          if projectId = "" then
            ([listEv, .promptSelectProject ps], .fail noProjectSelectedMsg)
          else ([listEv, .promptSelectProject ps], .ok projectId)

/-- The `gcloud auth login --brief` step, skipped by `--skip-login`. -/
def loginStep (flags : Flags) (env : Env) : Step Unit :=
  if flags.skipLogin then ([], .ok ())
  else
    ([Event.runCmd "gcloud" ["auth", "login", "--brief"]],
     match env.authResult with
     | .ok _ => .ok ()
     | .error e => .fail e)

/-- Project-id resolution: the flag when non-empty, otherwise
`getGoogleProjectId`. -/
def projectIdStep (flags : Flags) (env : Env) : Step String :=
  if flags.projectId = "" then getGoogleProjectId env
  else ([], .ok flags.projectId)

/-- The `gcloud config set project` step. -/
def setProjectStep (env : Env) (projectId : String) : Step Unit :=
  ([Event.runCmd "gcloud" ["config", "set", "project", projectId]],
   match env.setProjectResult with
   | .ok _ => .ok ()
   | .error e => .fail e)

/-- Zone resolution: the flag when non-empty, otherwise a single-select over
the live zone list; a failed zone fetch aborts before any prompt. -/
def zoneStep (flags : Flags) (env : Env) : Step String :=
  if flags.zone = "" then
    match env.googleZones with
    | .error e => ([], .fail e)
    | .ok availableZones =>
      ([Event.promptSelectZone availableZones],
       match env.selectZone with
       | .ok z => .ok z
       | .error e => .fail e)
  else ([], .ok flags.zone)

/-- Machine-type resolution: the flag when non-empty, otherwise a
single-select over the machine-type list. -/
def machineTypeStep (flags : Flags) (env : Env) : Step String :=
  if flags.machineType = "" then
    ([Event.promptSelectMachineType env.googleMachineTypes],
     match env.selectMachineType with
     | .ok m => .ok m
     | .error e => .fail e)
  else ([], .ok flags.machineType)

/-- The value left in the prompt target by `survey.AskOne` whose error is
discarded: the answer on success, the untouched initial `""` on failure. -/
def promptedValue : Except Unit String → String
  | .ok s => s
  | .error _ => ""

/-- Minimum-node-count resolution: the flag when non-empty, otherwise a text
prompt whose error is discarded. -/
def minStep (flags : Flags) (env : Env) : List Event × String :=
  if flags.minNumOfNodes = "" then
    ([Event.promptInputMinNodes], promptedValue env.inputMinNodes)
  else ([], flags.minNumOfNodes)

/-- Maximum-node-count resolution: the flag when non-empty, otherwise a text
prompt whose error is discarded. -/
def maxStep (flags : Flags) (env : Env) : List Event × String :=
  if flags.maxNumOfNodes = "" then
    ([Event.promptInputMaxNodes], promptedValue env.inputMaxNodes)
  else ([], flags.maxNumOfNodes)

/-- The parameter set resolved by the first half of the wizard. -/
structure PreVals where
  projectId : String
  clusterName : String
  zone : String
  machineType : String
  minNumOfNodes : String
  maxNumOfNodes : String
deriving DecidableEq

/-- The resolution sequence run once the experimental-feature confirmation is
accepted: login, project id, `config set project`, cluster name, zone,
machine type and node counts, in source order. -/
def preSAChain (flags : Flags) (env : Env) : Step (Option PreVals) :=
  Step.bind (loginStep flags env) fun _ =>
  Step.bind (projectIdStep flags env) fun projectId =>
  Step.bind (setProjectStep env projectId) fun _ =>
  let clusterName :=
    if flags.clusterName = "" then strToLower env.sillyName else flags.clusterName
  Step.bind (zoneStep flags env) fun zone =>
  Step.bind (machineTypeStep flags env) fun machineType =>
  let minP := minStep flags env
  let maxP := maxStep flags env
  (minP.1 ++ maxP.1,
   .ok (some ⟨projectId, clusterName, zone, machineType, minP.2, maxP.2⟩))

/-- The first half of `createClusterGKETerraform`: the experimental-feature
confirmation (whose prompt error is discarded and whose decline returns a nil
result, modelled by `.ok none`), then the resolution chain. -/
def preSA (flags : Flags) (env : Env) : Step (Option PreVals) :=
  let confirm := match env.confirmContinue with
    | .ok b => b
    | .error _ => false
  if confirm = false then
    ([Event.promptConfirmContinue], .ok none)
  else
    Step.tag [Event.promptConfirmContinue] (preSAChain flags env)

/-- Arguments of the service-account listing call. -/
def saListArgs (serviceAccount : String) : List String :=
  ["iam", "service-accounts", "list", "--filter", serviceAccount]

/-- Arguments of the testable-permissions listing call. -/
def permArgs (projectId : String) : List String :=
  ["iam", "list-testable-permissions",
   "//cloudresourcemanager.googleapis.com/projects/" ++ projectId,
   "--filter", "resourcemanager.projects.setIamPolicy"]

/-- Arguments of one `add-iam-policy-binding` call. -/
def bindArgs (projectId serviceAccount role : String) : List String :=
  ["projects", "add-iam-policy-binding", projectId, "--member",
   "serviceAccount:" ++ serviceAccount ++ "@" ++ projectId ++
     ".iam.gserviceaccount.com",
   "--role", role]

/-- Error returned when the caller lacks the IAM-grant permission. -/
def insufficientPermissionMsg : String :=
  "User does not have the required role \x27resourcemanager.projects.setIamPolicy\x27 to configure a service account"

/-- The role-binding loop: binds each role in order, reassigning the shared
`args` variable at every iteration, and returns the first failure
immediately; on success the result carries the final value of `args`. -/
def bindRoles (projectId serviceAccount : String) (env : Env)
    (args : List String) : List String → Step (List String)
  | [] => ([], .ok args)
  | role :: rest =>
    let a := bindArgs projectId serviceAccount role
    match env.bindRole role with
    | .error e => ([Event.runCmd "gcloud" a], .fail e)
    | .ok _ => Step.tag [Event.runCmd "gcloud" a] (bindRoles projectId serviceAccount env a rest)

/-- The identity-bootstrap half of the wizard: list the service account
`jx-<cluster-name>`; when the output is exactly the `Listed 0 items.`
sentinel, check the caller holds `resourcemanager.projects.setIamPolicy`,
create the account and bind the required roles; otherwise proceed without
mutation.  The result carries the final value of the reused `args`
variable. -/
def saPhase (projectId clusterName : String) (env : Env) : Step (List String) :=
  let serviceAccount := "jx-" ++ clusterName
  let args := saListArgs serviceAccount
  match env.saListOutput with
  | .error e => ([Event.getOutput "" "gcloud" args], .fail e)
  | .ok output =>
    Step.tag [Event.getOutput "" "gcloud" args] <|
    if output = "Listed 0 items." then
      let args2 := permArgs projectId
      match env.permissionsOutput with
      | .error e => ([Event.getOutput "" "gcloud" args2], .fail e)
      | .ok out2 =>
        Step.tag [Event.getOutput "" "gcloud" args2] <|
        if goContains out2 "resourcemanager.projects.setIamPolicy" then
          let args3 := ["iam", "service-accounts", "create", serviceAccount]
          match env.createSAResult with
          | .error e => ([Event.runCmd "gcloud" args3], .fail e)
          | .ok _ =>
            Step.tag [Event.runCmd "gcloud" args3]
              (bindRoles projectId serviceAccount env args3 requiredServiceAccountRoles)
        else ([], .fail insufficientPermissionMsg)
    else ([], .ok args)

/-- The label string after the synthetic `created-by` entry: when the current
user is known and its sanitized name non-empty, append
`created-by=<username>` after the user-supplied labels, comma-separated. -/
def labelsWithCreatedBy (labels0 : String) (currentUser : Option String) : String :=
  match currentUser with
  | none => labels0
  | some username =>
    if username = "" then labels0
    else labels0 ++ (if labels0 = "" then "" else ",") ++ "created-by=" ++ username

/-- The local variables of `createClusterGKETerraform` at its final
`return nil`, recorded for verification: the resolved parameters, the labels
value at its resolution site (`labels := o.Flags.Labels`), the labels value
after the synthetic entry, and the final reused `args` list. -/
structure Resolved where
  projectId : String
  clusterName : String
  zone : String
  machineType : String
  minNumOfNodes : String
  maxNumOfNodes : String
  labelsResolved : String
  labelsFinal : String
  args : List String
deriving DecidableEq

/-- A whole wizard run: its events, its Go result, and the resolved locals
when the run reaches the final `return nil` (`none` otherwise, including the
declined-confirmation early `return nil`). -/
structure WizardRun where
  events : List Event
  outcome : GoRes Unit
  final : Option Resolved
deriving DecidableEq

/-- Embedding of `createClusterGKETerraform`: parameter resolution, identity
bootstrap, then the label argument construction (the provisioning calls
after it are commented out in the source). -/
def createClusterGKETerraform (flags : Flags) (env : Env) : WizardRun :=
  match preSA flags env with
  | (ev, .fail e) => ⟨ev, .fail e, none⟩
  | (ev, .panicked) => ⟨ev, .panicked, none⟩
  | (ev, .ok none) => ⟨ev, .ok (), none⟩
  | (ev, .ok (some v)) =>
    match saPhase v.projectId v.clusterName env with
    | (ev2, .fail e) => ⟨ev ++ ev2, .fail e, none⟩
    | (ev2, .panicked) => ⟨ev ++ ev2, .panicked, none⟩
    | (ev2, .ok args) =>
      let labels := labelsWithCreatedBy flags.labels env.currentUser
      let argsF := if labels = "" then args else args ++ ["--labels=" ++ strToLower labels]
      ⟨ev ++ ev2, .ok (),
       some ⟨v.projectId, v.clusterName, v.zone, v.machineType,
             v.minNumOfNodes, v.maxNumOfNodes, flags.labels, labels, argsF⟩⟩

/-- Does the event invoke `gcloud iam service-accounts create`? -/
def isCreateSACall : Event → Bool
  | .runCmd _ args => args.take 3 == ["iam", "service-accounts", "create"]
  | _ => false

/-- Does the event invoke `gcloud projects add-iam-policy-binding`? -/
def isBindCall : Event → Bool
  | .runCmd _ args => args.take 2 == ["projects", "add-iam-policy-binding"]
  | _ => false

/-- Is the event an external command invocation (as opposed to a prompt)? -/
def isExternalCall : Event → Bool
  | .runCmd _ _ => true
  | .getOutput _ _ _ => true
  | _ => false

/-- Shape invariant of the events emitted before the identity-bootstrap
phase: prompts only appear for fields whose flag is empty, select prompts
carry the provider-supplied option lists, and the only external commands are
the login, project-listing and project-setting calls. -/
def preEventOk (flags : Flags) (env : Env) : Event → Prop
  | .promptConfirmContinue => True
  | .promptConfirmCreateProject => flags.projectId = ""
  | .promptSelectProject _ => flags.projectId = ""
  | .promptSelectZone opts => flags.zone = "" ∧ env.googleZones = .ok opts
  | .promptSelectMachineType opts => flags.machineType = "" ∧ opts = env.googleMachineTypes
  | .promptInputMinNodes => flags.minNumOfNodes = ""
  | .promptInputMaxNodes => flags.maxNumOfNodes = ""
  | .runCmd _ args =>
      args = ["auth", "login", "--brief"] ∨ ∃ p, args = ["config", "set", "project", p]
  | .getOutput _ _ args => args = ["projects", "list"]

theorem Step.tag_fst (evs : List Event) (x : Step α) : (Step.tag evs x).1 = evs ++ x.1 := rfl

theorem Step.tag_snd (evs : List Event) (x : Step α) : (Step.tag evs x).2 = x.2 := rfl

theorem Step.bind_fst_mem {x : Step α} {f : α → Step β} {e : Event}
    (he : e ∈ (Step.bind x f).1) :
    e ∈ x.1 ∨ ∃ a, x.2 = .ok a ∧ e ∈ (f a).1 := by
  unfold Step.bind at he
  split at he
  case _ a ha => rcases List.mem_append.1 he with h | h
                 · exact Or.inl h
                 · exact Or.inr ⟨a, ha, h⟩
  case _ => exact Or.inl he
  case _ => exact Or.inl he

theorem Step.bind_snd_ok {x : Step α} {f : α → Step β} {b : β}
    (h : (Step.bind x f).2 = .ok b) :
    ∃ a, x.2 = .ok a ∧ (f a).2 = .ok b := by
  unfold Step.bind at h
  split at h
  case _ a ha => exact ⟨a, ha, h⟩
  case _ => simp at h
  case _ => simp at h

theorem Step.bind_of_ok {x : Step α} {f : α → Step β} {a : α} (h : x.2 = .ok a) :
    Step.bind x f = (x.1 ++ (f a).1, (f a).2) := by
  unfold Step.bind
  split
  case _ a' ha => rw [ha] at h; cases h; rfl
  case _ e he => rw [he] at h; cases h
  case _ he => rw [he] at h; cases h

theorem Step.bind_of_fail {x : Step α} {f : α → Step β} {e : String} (h : x.2 = .fail e) :
    Step.bind x f = (x.1, .fail e) := by
  unfold Step.bind
  split
  case _ a' ha => rw [ha] at h; cases h
  case _ e' he => rw [he] at h; cases h; rfl
  case _ he => rw [he] at h; cases h

/-- Shape of the events `getGoogleProjectId` can emit. -/
def gpiEventOk : Event → Prop
  | .getOutput _ _ args => args = ["projects", "list"]
  | .promptConfirmCreateProject => True
  | .promptSelectProject _ => True
  | _ => False

theorem gpi_mem {env : Env} {e : Event} (he : e ∈ (getGoogleProjectId env).1) :
    gpiEventOk e := by
  unfold getGoogleProjectId at he
  repeat' split at he
  all_goals simp only [List.mem_cons, List.mem_singleton, List.not_mem_nil, or_false] at he
  all_goals rcases he with rfl | rfl <;> trivial

theorem loginStep_ev {flags : Flags} {env : Env} {e : Event}
    (he : e ∈ (loginStep flags env).1) : preEventOk flags env e := by
  unfold loginStep at he
  split at he <;> simp_all
  subst he; exact Or.inl rfl

theorem projectIdStep_ev {flags : Flags} {env : Env} {e : Event}
    (he : e ∈ (projectIdStep flags env).1) : preEventOk flags env e := by
  unfold projectIdStep at he
  split at he
  case _ hflag =>
    have hg := gpi_mem he
    cases e <;> simp_all [gpiEventOk, preEventOk]
  case _ => simp at he

theorem setProjectStep_ev {env : Env} {pid : String} {flags : Flags} {e : Event}
    (he : e ∈ (setProjectStep env pid).1) : preEventOk flags env e := by
  simp only [setProjectStep, List.mem_singleton] at he
  subst he; exact Or.inr ⟨pid, rfl⟩

theorem zoneStep_ev {flags : Flags} {env : Env} {e : Event}
    (he : e ∈ (zoneStep flags env).1) : preEventOk flags env e := by
  unfold zoneStep at he
  split at he
  case _ hflag =>
    split at he
    case _ => simp at he
    case _ zones hz =>
      simp only [List.mem_singleton] at he
      subst he; exact ⟨hflag, hz⟩
  case _ => simp at he

theorem machineTypeStep_ev {flags : Flags} {env : Env} {e : Event}
    (he : e ∈ (machineTypeStep flags env).1) : preEventOk flags env e := by
  unfold machineTypeStep at he
  split at he
  case _ hflag =>
    simp only [List.mem_singleton] at he
    subst he; exact ⟨hflag, rfl⟩
  case _ => simp at he

theorem minStep_ev {flags : Flags} {env : Env} {e : Event}
    (he : e ∈ (minStep flags env).1) : preEventOk flags env e := by
  unfold minStep at he
  split at he
  case _ hflag => simp only [List.mem_singleton] at he; subst he; exact hflag
  case _ => simp at he

theorem maxStep_ev {flags : Flags} {env : Env} {e : Event}
    (he : e ∈ (maxStep flags env).1) : preEventOk flags env e := by
  unfold maxStep at he
  split at he
  case _ hflag => simp only [List.mem_singleton] at he; subst he; exact hflag
  case _ => simp at he

theorem preSAChain_ev (flags : Flags) (env : Env) :
    ∀ e ∈ (preSAChain flags env).1, preEventOk flags env e := by
  intro e he
  unfold preSAChain at he
  rcases Step.bind_fst_mem he with h | ⟨_, _, h⟩
  · exact loginStep_ev h
  · rcases Step.bind_fst_mem h with h | ⟨pid, _, h⟩
    · exact projectIdStep_ev h
    · rcases Step.bind_fst_mem h with h | ⟨_, _, h⟩
      · exact setProjectStep_ev h
      · rcases Step.bind_fst_mem h with h | ⟨z, _, h⟩
        · exact zoneStep_ev h
        · rcases Step.bind_fst_mem h with h | ⟨m, _, h⟩
          · exact machineTypeStep_ev h
          · dsimp only at h
            rcases List.mem_append.1 h with h | h
            · exact minStep_ev h
            · exact maxStep_ev h

theorem preSA_events_ok (flags : Flags) (env : Env) :
    ∀ e ∈ (preSA flags env).1, preEventOk flags env e := by
  intro e he
  unfold preSA at he
  split at he <;> dsimp only at he
  all_goals first
    | (rw [if_pos rfl] at he
       simp only [List.mem_singleton] at he
       subst he; trivial)
    | (split at he
       · simp only [List.mem_singleton] at he; subst he; trivial
       · simp only [Step.tag_fst, List.mem_append, List.mem_singleton] at he
         rcases he with rfl | he
         · trivial
         · exact preSAChain_ev flags env e he)

theorem preSAChain_ok_inv {flags : Flags} {env : Env} {v : PreVals}
    (h : (preSAChain flags env).2 = .ok (some v)) :
    (projectIdStep flags env).2 = .ok v.projectId ∧
    v.clusterName = (if flags.clusterName = "" then strToLower env.sillyName
                     else flags.clusterName) ∧
    (zoneStep flags env).2 = .ok v.zone ∧
    (machineTypeStep flags env).2 = .ok v.machineType ∧
    v.minNumOfNodes = (minStep flags env).2 ∧
    v.maxNumOfNodes = (maxStep flags env).2 := by
  unfold preSAChain at h
  rcases Step.bind_snd_ok h with ⟨_, hl, h⟩
  rcases Step.bind_snd_ok h with ⟨pid, hpid, h⟩
  rcases Step.bind_snd_ok h with ⟨_, hset, h⟩
  rcases Step.bind_snd_ok h with ⟨z, hz, h⟩
  rcases Step.bind_snd_ok h with ⟨m, hm, h⟩
  dsimp only at h
  cases v
  simp only [GoRes.ok.injEq, Option.some.injEq, PreVals.mk.injEq] at h
  obtain ⟨h1, h2, h3, h4, h5, h6⟩ := h
  exact ⟨h1 ▸ hpid, h2.symm, h3 ▸ hz, h4 ▸ hm, h5.symm, h6.symm⟩

theorem preSA_ok_inv {flags : Flags} {env : Env} {v : PreVals}
    (h : (preSA flags env).2 = .ok (some v)) :
    (projectIdStep flags env).2 = .ok v.projectId ∧
    v.clusterName = (if flags.clusterName = "" then strToLower env.sillyName
                     else flags.clusterName) ∧
    (zoneStep flags env).2 = .ok v.zone ∧
    (machineTypeStep flags env).2 = .ok v.machineType ∧
    v.minNumOfNodes = (minStep flags env).2 ∧
    v.maxNumOfNodes = (maxStep flags env).2 := by
  unfold preSA at h
  split at h <;> dsimp only at h
  all_goals first
    | (rw [if_pos rfl] at h; simp at h)
    | (split at h
       · simp at h
       · exact preSAChain_ok_inv h)

theorem bindRoles_mem {pid sa : String} {env : Env} {e : Event} :
    ∀ (roles : List String) {a : List String},
      e ∈ (bindRoles pid sa env a roles).1 → isExternalCall e = true := by
  intro roles
  induction roles with
  | nil => intro a h; simp [bindRoles] at h
  | cons r rs ih =>
    intro a h
    unfold bindRoles at h
    dsimp only at h
    split at h
    · simp only [List.mem_singleton] at h; subst h; rfl
    · simp only [Step.tag_fst, List.mem_append, List.mem_singleton] at h
      rcases h with rfl | h
      · rfl
      · exact ih h

theorem saPhase_mem {pid cn : String} {env : Env} {e : Event}
    (he : e ∈ (saPhase pid cn env).1) : isExternalCall e = true := by
  unfold saPhase at he
  dsimp only at he
  split at he
  · simp only [List.mem_singleton] at he; subst he; rfl
  · simp only [Step.tag_fst, List.mem_append, List.mem_singleton] at he
    rcases he with rfl | he
    · rfl
    · split at he
      · split at he
        · simp only [List.mem_singleton] at he; subst he; rfl
        · simp only [Step.tag_fst, List.mem_append, List.mem_singleton] at he
          rcases he with rfl | he
          · rfl
          · split at he
            · split at he
              · simp only [List.mem_singleton] at he; subst he; rfl
              · simp only [Step.tag_fst, List.mem_append, List.mem_singleton] at he
                rcases he with rfl | he
                · rfl
                · exact bindRoles_mem _ he
            · simp at he
      · simp at he

theorem run_events_ok (flags : Flags) (env : Env) :
    ∀ e ∈ (createClusterGKETerraform flags env).events,
      preEventOk flags env e ∨ isExternalCall e = true := by
  intro e he
  unfold createClusterGKETerraform at he
  split at he
  case h_1 ev msg heq =>
    exact Or.inl (preSA_events_ok flags env e (by rw [heq]; exact he))
  case h_2 ev heq =>
    exact Or.inl (preSA_events_ok flags env e (by rw [heq]; exact he))
  case h_3 ev heq =>
    exact Or.inl (preSA_events_ok flags env e (by rw [heq]; exact he))
  case h_4 ev v heq =>
    split at he
    all_goals dsimp only at he
    all_goals rcases List.mem_append.1 he with h | h
    all_goals first
      | exact Or.inl (preSA_events_ok flags env e (by rw [heq]; exact h))
      | (right
         next heq2 => exact saPhase_mem (by rw [heq2]; exact h))

theorem preEventOk_no_mutation {flags : Flags} {env : Env} {e : Event}
    (h : preEventOk flags env e) : isCreateSACall e = false ∧ isBindCall e = false := by
  cases e
  case runCmd c args =>
    simp only [preEventOk] at h
    rcases h with rfl | ⟨p, rfl⟩ <;> exact ⟨rfl, rfl⟩
  all_goals exact ⟨rfl, rfl⟩

theorem run_final_inv {flags : Flags} {env : Env} {r : Resolved}
    (h : (createClusterGKETerraform flags env).final = some r) :
    (preSA flags env).2 =
      .ok (some ⟨r.projectId, r.clusterName, r.zone, r.machineType,
                 r.minNumOfNodes, r.maxNumOfNodes⟩) ∧
    r.labelsResolved = flags.labels ∧
    r.labelsFinal = labelsWithCreatedBy flags.labels env.currentUser ∧
    ∃ args, (saPhase r.projectId r.clusterName env).2 = .ok args ∧
      r.args = (if labelsWithCreatedBy flags.labels env.currentUser = "" then args
                else args ++
                  ["--labels=" ++ strToLower (labelsWithCreatedBy flags.labels env.currentUser)]) := by
  unfold createClusterGKETerraform at h
  split at h
  case h_1 => simp at h
  case h_2 => simp at h
  case h_3 => simp at h
  case h_4 ev v heq =>
    split at h
    case h_1 => simp at h
    case h_2 => simp at h
    case h_3 ev2 args heq2 =>
      dsimp only at h
      rw [Option.some.injEq] at h
      subst h
      refine ⟨congrArg Prod.snd heq, rfl, rfl, args, congrArg Prod.snd heq2, rfl⟩

theorem eq_pair_of_snd {α : Type} {x : List Event × GoRes α} {r : GoRes α}
    (h : x.2 = r) : x = (x.1, r) := by
  rw [← h]

theorem projectIdStep_of_flag {flags : Flags} {env : Env} (h : flags.projectId ≠ "") :
    projectIdStep flags env = ([], .ok flags.projectId) := by
  simp [projectIdStep, h]

theorem zoneStep_of_flag {flags : Flags} {env : Env} (h : flags.zone ≠ "") :
    zoneStep flags env = ([], .ok flags.zone) := by
  simp [zoneStep, h]

theorem zoneStep_fetch_fail {flags : Flags} {env : Env} {e : String}
    (h1 : flags.zone = "") (h2 : env.googleZones = .error e) :
    zoneStep flags env = ([], .fail e) := by
  simp [zoneStep, h1, h2]

theorem machineTypeStep_of_flag {flags : Flags} {env : Env} (h : flags.machineType ≠ "") :
    machineTypeStep flags env = ([], .ok flags.machineType) := by
  simp [machineTypeStep, h]

theorem minStep_of_flag {flags : Flags} {env : Env} (h : flags.minNumOfNodes ≠ "") :
    minStep flags env = ([], flags.minNumOfNodes) := by
  simp [minStep, h]

theorem maxStep_of_flag {flags : Flags} {env : Env} (h : flags.maxNumOfNodes ≠ "") :
    maxStep flags env = ([], flags.maxNumOfNodes) := by
  simp [maxStep, h]

theorem saPhase_exists {pid cn : String} {env : Env} {out : String}
    (h : env.saListOutput = .ok out) (hne : out ≠ "Listed 0 items.") :
    saPhase pid cn env =
      ([Event.getOutput "" "gcloud" (saListArgs ("jx-" ++ cn))],
       .ok (saListArgs ("jx-" ++ cn))) := by
  unfold saPhase
  rw [h]
  dsimp only
  rw [if_neg hne]
  simp [Step.tag]

theorem saPhase_noperm {pid cn : String} {env : Env} {p : String}
    (h : env.saListOutput = .ok "Listed 0 items.")
    (hp : env.permissionsOutput = .ok p)
    (hnp : goContains p "resourcemanager.projects.setIamPolicy" = false) :
    saPhase pid cn env =
      ([Event.getOutput "" "gcloud" (saListArgs ("jx-" ++ cn)),
        Event.getOutput "" "gcloud" (permArgs pid)],
       .fail insufficientPermissionMsg) := by
  unfold saPhase
  rw [h]
  dsimp only
  rw [if_pos rfl, hp]
  dsimp only
  rw [if_neg (by simp [hnp])]
  simp [Step.tag]

theorem saPhase_create {pid cn : String} {env : Env} {p : String}
    (h : env.saListOutput = .ok "Listed 0 items.")
    (hp : env.permissionsOutput = .ok p)
    (hyes : goContains p "resourcemanager.projects.setIamPolicy" = true)
    (hc : env.createSAResult = .ok ()) :
    saPhase pid cn env =
      (Event.getOutput "" "gcloud" (saListArgs ("jx-" ++ cn)) ::
       Event.getOutput "" "gcloud" (permArgs pid) ::
       Event.runCmd "gcloud" ["iam", "service-accounts", "create", "jx-" ++ cn] ::
       (bindRoles pid ("jx-" ++ cn) env
          ["iam", "service-accounts", "create", "jx-" ++ cn]
          requiredServiceAccountRoles).1,
       (bindRoles pid ("jx-" ++ cn) env
          ["iam", "service-accounts", "create", "jx-" ++ cn]
          requiredServiceAccountRoles).2) := by
  unfold saPhase
  rw [h]
  dsimp only
  rw [if_pos rfl, hp]
  dsimp only
  rw [if_pos hyes, hc]
  simp [Step.tag]

theorem bindRoles_all_ok {pid sa : String} {env : Env} :
    ∀ (roles : List String), (∀ r ∈ roles, env.bindRole r = .ok ()) →
    ∀ (a : List String), ∃ aF,
      bindRoles pid sa env a roles =
        (roles.map (fun r => Event.runCmd "gcloud" (bindArgs pid sa r)), .ok aF) := by
  intro roles
  induction roles with
  | nil => intro _ a; exact ⟨a, rfl⟩
  | cons r rs ih =>
    intro hall a
    obtain ⟨aF, hF⟩ := ih (fun x hx => hall x (List.mem_cons_of_mem r hx)) (bindArgs pid sa r)
    refine ⟨aF, ?_⟩
    unfold bindRoles
    rw [hall r (List.mem_cons_self r rs)]
    dsimp only
    rw [hF]
    simp [Step.tag]

theorem bindRoles_fail {pid sa : String} {env : Env} {e : String} :
    ∀ (xs : List String) (role : String) (ys : List String),
      (∀ r ∈ xs, env.bindRole r = .ok ()) → env.bindRole role = .error e →
    ∀ (a : List String),
      bindRoles pid sa env a (xs ++ role :: ys) =
        (xs.map (fun r => Event.runCmd "gcloud" (bindArgs pid sa r)) ++
           [Event.runCmd "gcloud" (bindArgs pid sa role)],
         .fail e) := by
  intro xs
  induction xs with
  | nil =>
    intro role ys _ hrole a
    simp only [List.nil_append]
    unfold bindRoles
    rw [hrole]
    simp
  | cons x xs ih =>
    intro role ys hxs hrole a
    simp only [List.cons_append]
    unfold bindRoles
    rw [hxs x (List.mem_cons_self x xs)]
    dsimp only
    rw [ih role ys (fun r hr => hxs r (List.mem_cons_of_mem x hr)) hrole]
    simp [Step.tag]

theorem parseProjectLines_none_iff (ls : List String) :
    parseProjectLines ls = none ↔
      ∃ l ∈ ls, goContains l CLUSTER_LIST_HEADER = false ∧ goFields l = [] := by
  induction ls with
  | nil => simp [parseProjectLines]
  | cons l rest ih =>
    unfold parseProjectLines
    split
    case isTrue hh =>
      rw [ih]
      simp only [List.mem_cons]
      constructor
      · rintro ⟨l', hm, hc, hf⟩; exact ⟨l', Or.inr hm, hc, hf⟩
      · rintro ⟨l', (rfl | hm), hc, hf⟩
        · rw [hh] at hc; cases hc
        · exact ⟨l', hm, hc, hf⟩
    case isFalse hh =>
      split
      case h_1 hfl =>
        refine iff_of_true rfl ⟨l, List.mem_cons_self l rest, ?_, hfl⟩
        simpa using hh
      case h_2 f fs hfl =>
        rw [Option.map_eq_none', ih]
        simp only [List.mem_cons]
        constructor
        · rintro ⟨l', hm, hc, hf⟩; exact ⟨l', Or.inr hm, hc, hf⟩
        · rintro ⟨l', (rfl | hm), hc, hf⟩
          · rw [hfl] at hf; cases hf
          · exact ⟨l', hm, hc, hf⟩

theorem parseProjectLines_all_header :
    ∀ ls : List String, (∀ l ∈ ls, goContains l CLUSTER_LIST_HEADER = true) →
      parseProjectLines ls = some [] := by
  intro ls
  induction ls with
  | nil => intro _; rfl
  | cons l rest ih =>
    intro h
    unfold parseProjectLines
    rw [if_pos (h l (List.mem_cons_self l rest))]
    exact ih (fun x hx => h x (List.mem_cons_of_mem l hx))

theorem run_declined {flags : Flags} {env : Env} (h : env.confirmContinue = .ok false) :
    createClusterGKETerraform flags env = ⟨[Event.promptConfirmContinue], .ok (), none⟩ := by
  have hp : preSA flags env = ([Event.promptConfirmContinue], .ok none) := by
    unfold preSA; rw [h]; rfl
  unfold createClusterGKETerraform
  rw [hp]

theorem run_confirm_error {flags : Flags} {env : Env} {e : Unit}
    (h : env.confirmContinue = .error e) :
    createClusterGKETerraform flags env = ⟨[Event.promptConfirmContinue], .ok (), none⟩ := by
  have hp : preSA flags env = ([Event.promptConfirmContinue], .ok none) := by
    unfold preSA; rw [h]; rfl
  unfold createClusterGKETerraform
  rw [hp]

theorem run_of_preSA_fail {flags : Flags} {env : Env} {msg : String}
    (h : (preSA flags env).2 = .fail msg) :
    createClusterGKETerraform flags env = ⟨(preSA flags env).1, .fail msg, none⟩ := by
  have hev := eq_pair_of_snd h
  unfold createClusterGKETerraform
  rw [hev]

theorem setProjectStep_snd_ok {env : Env} {pid : String} (h : env.setProjectResult = .ok ()) :
    (setProjectStep env pid).2 = .ok () := by
  simp [setProjectStep, h]

theorem preSAChain_snd_zone_fail {flags : Flags} {env : Env} {e : String} {pid : String}
    (hz : flags.zone = "") (hfz : env.googleZones = .error e)
    (hl : (loginStep flags env).2 = .ok ())
    (hpid : (projectIdStep flags env).2 = .ok pid)
    (hset : env.setProjectResult = .ok ()) :
    (preSAChain flags env).2 = .fail e := by
  unfold preSAChain
  rw [Step.bind_of_ok hl]
  dsimp only
  rw [Step.bind_of_ok hpid]
  dsimp only
  rw [Step.bind_of_ok (setProjectStep_snd_ok hset)]
  dsimp only
  rw [Step.bind_of_fail (show (zoneStep flags env).2 = .fail e by
        rw [zoneStep_fetch_fail hz hfz])]

theorem preSA_of_confirmed {flags : Flags} {env : Env} (h : env.confirmContinue = .ok true) :
    preSA flags env = Step.tag [Event.promptConfirmContinue] (preSAChain flags env) := by
  unfold preSA
  rw [h]
  rfl

theorem run_of_saPhase_ok {flags : Flags} {env : Env} {v : PreVals}
    {ev2 : List Event} {args : List String}
    (hpre : (preSA flags env).2 = .ok (some v))
    (hsa2 : saPhase v.projectId v.clusterName env = (ev2, .ok args)) :
    (createClusterGKETerraform flags env).events = (preSA flags env).1 ++ ev2 ∧
    (createClusterGKETerraform flags env).outcome = .ok () := by
  unfold createClusterGKETerraform
  rw [eq_pair_of_snd hpre]
  dsimp only
  rw [hsa2]
  exact ⟨rfl, rfl⟩

theorem run_of_saPhase_fail {flags : Flags} {env : Env} {v : PreVals}
    {ev2 : List Event} {msg : String}
    (hpre : (preSA flags env).2 = .ok (some v))
    (hsa2 : saPhase v.projectId v.clusterName env = (ev2, .fail msg)) :
    createClusterGKETerraform flags env = ⟨(preSA flags env).1 ++ ev2, .fail msg, none⟩ := by
  unfold createClusterGKETerraform
  rw [eq_pair_of_snd hpre]
  dsimp only
  rw [hsa2]

theorem final_vals {flags : Flags} {env : Env} {r : Resolved}
    (hfin : (createClusterGKETerraform flags env).final = some r) :
    (projectIdStep flags env).2 = .ok r.projectId ∧
    r.clusterName = (if flags.clusterName = "" then strToLower env.sillyName
                     else flags.clusterName) ∧
    (zoneStep flags env).2 = .ok r.zone ∧
    (machineTypeStep flags env).2 = .ok r.machineType ∧
    r.minNumOfNodes = (minStep flags env).2 ∧
    r.maxNumOfNodes = (maxStep flags env).2 ∧
    r.labelsResolved = flags.labels := by
  obtain ⟨hpre, hlr, _, _⟩ := run_final_inv hfin
  obtain ⟨h1, h2, h3, h4, h5, h6⟩ := preSA_ok_inv hpre
  exact ⟨h1, h2, h3, h4, h5, h6, hlr⟩

/-- C2: if the user declines the top-level confirmation prompt, the wizard
issues no external command (no `gcloud` authentication, project-setting,
listing, service-account, or provisioning call), performs no
identity-bootstrap step, and returns a nil (success) result: the whole run is
exactly the confirmation prompt, a nil outcome, and no resolved state. -/
theorem claim_C2 (flags : Flags) (env : Env)
    (h : env.confirmContinue = .ok false) :
    createClusterGKETerraform flags env =
      ⟨[Event.promptConfirmContinue], .ok (), none⟩ ∧
    ∀ e ∈ (createClusterGKETerraform flags env).events, isExternalCall e = false := by
  refine ⟨run_declined h, ?_⟩
  intro e he
  rw [run_declined h] at he
  simp only [List.mem_singleton] at he
  subst he
  rfl

/-- C3: if the service-account listing output differs from the literal
sentinel `Listed 0 items.`, the wizard issues no service-account creation
call and no role-binding call anywhere in the run. -/
theorem claim_C3 (flags : Flags) (env : Env) (out : String)
    (hsa : env.saListOutput = .ok out) (hne : out ≠ "Listed 0 items.") :
    ∀ e ∈ (createClusterGKETerraform flags env).events,
      isCreateSACall e = false ∧ isBindCall e = false := by
  intro e he
  unfold createClusterGKETerraform at he
  split at he
  case h_1 ev msg heq =>
    exact preEventOk_no_mutation (preSA_events_ok flags env e (by rw [heq]; exact he))
  case h_2 ev heq =>
    exact preEventOk_no_mutation (preSA_events_ok flags env e (by rw [heq]; exact he))
  case h_3 ev heq =>
    exact preEventOk_no_mutation (preSA_events_ok flags env e (by rw [heq]; exact he))
  case h_4 ev v heq =>
    rw [saPhase_exists hsa hne] at he
    dsimp only at he
    rcases List.mem_append.1 he with h | h
    · exact preEventOk_no_mutation (preSA_events_ok flags env e (by rw [heq]; exact h))
    · simp only [List.mem_singleton] at h
      subst h
      exact ⟨rfl, rfl⟩

/-- C4: when the service account is absent (sentinel output observed) and the
permission listing does not show `resourcemanager.projects.setIamPolicy`, the
wizard fails with the insufficient-permission error and issues no creation
and no role-binding call. -/
theorem claim_C4 (flags : Flags) (env : Env) (v : PreVals) (p : String)
    (hpre : (preSA flags env).2 = .ok (some v))
    (hsa : env.saListOutput = .ok "Listed 0 items.")
    (hp : env.permissionsOutput = .ok p)
    (hnp : goContains p "resourcemanager.projects.setIamPolicy" = false) :
    (createClusterGKETerraform flags env).outcome = .fail insufficientPermissionMsg ∧
    ∀ e ∈ (createClusterGKETerraform flags env).events,
      isCreateSACall e = false ∧ isBindCall e = false := by
  have hrun := run_of_saPhase_fail hpre (saPhase_noperm hsa hp hnp)
  refine ⟨by rw [hrun], ?_⟩
  intro e he
  rw [hrun] at he
  dsimp only at he
  rcases List.mem_append.1 he with h | h
  · exact preEventOk_no_mutation (preSA_events_ok flags env e h)
  · simp only [List.mem_cons, List.not_mem_nil, or_false] at h
    rcases h with rfl | rfl <;> exact ⟨rfl, rfl⟩

/-- C5: when the service account is absent and the caller holds the required
permission, the wizard creates the account and then issues one role-binding
call per role, in order, over exactly the fixed three-role list; if a binding
call fails, the run stops with that failure, issuing no further binding calls
and no rollback of the bindings already made. -/
theorem claim_C5 (flags : Flags) (env : Env) (v : PreVals) (p : String)
    (hpre : (preSA flags env).2 = .ok (some v))
    (hsa : env.saListOutput = .ok "Listed 0 items.")
    (hp : env.permissionsOutput = .ok p)
    (hyes : goContains p "resourcemanager.projects.setIamPolicy" = true)
    (hc : env.createSAResult = .ok ()) :
    ((∀ role ∈ requiredServiceAccountRoles, env.bindRole role = .ok ()) →
      (createClusterGKETerraform flags env).events =
        (preSA flags env).1 ++
        [Event.getOutput "" "gcloud" (saListArgs ("jx-" ++ v.clusterName)),
         Event.getOutput "" "gcloud" (permArgs v.projectId),
         Event.runCmd "gcloud" ["iam", "service-accounts", "create", "jx-" ++ v.clusterName]] ++
        requiredServiceAccountRoles.map
          (fun role => Event.runCmd "gcloud" (bindArgs v.projectId ("jx-" ++ v.clusterName) role)) ∧
      (createClusterGKETerraform flags env).outcome = .ok ()) ∧
    (∀ xs role ys e, requiredServiceAccountRoles = xs ++ role :: ys →
      (∀ r ∈ xs, env.bindRole r = .ok ()) → env.bindRole role = .error e →
      (createClusterGKETerraform flags env).events =
        (preSA flags env).1 ++
        [Event.getOutput "" "gcloud" (saListArgs ("jx-" ++ v.clusterName)),
         Event.getOutput "" "gcloud" (permArgs v.projectId),
         Event.runCmd "gcloud" ["iam", "service-accounts", "create", "jx-" ++ v.clusterName]] ++
        (xs.map (fun r => Event.runCmd "gcloud" (bindArgs v.projectId ("jx-" ++ v.clusterName) r)) ++
         [Event.runCmd "gcloud" (bindArgs v.projectId ("jx-" ++ v.clusterName) role)]) ∧
      (createClusterGKETerraform flags env).outcome = .fail e) := by
  constructor
  · intro hall
    obtain ⟨aF, hbnd⟩ := bindRoles_all_ok requiredServiceAccountRoles hall
      ["iam", "service-accounts", "create", "jx-" ++ v.clusterName]
    obtain ⟨hev, hout⟩ := run_of_saPhase_ok hpre
      (by rw [saPhase_create hsa hp hyes hc, hbnd])
    refine ⟨?_, hout⟩
    rw [hev]
    simp [List.append_assoc]
  · intro xs role ys e hsplit hxs hrole
    have hbnd := @bindRoles_fail v.projectId ("jx-" ++ v.clusterName) env e
      xs role ys hxs hrole
      ["iam", "service-accounts", "create", "jx-" ++ v.clusterName]
    have hrun := run_of_saPhase_fail hpre
      (by rw [saPhase_create hsa hp hyes hc, hsplit, hbnd])
    refine ⟨?_, by rw [hrun]⟩
    rw [hrun]
    simp [List.append_assoc]

/-- C6: when the project listing yields zero existing projects (every line of
the output is a header line), the wizard offers to create one; declining
fails with the no-project error, accepting fails with the not-implemented
error — in both branches an error, not a project id, is returned. -/
theorem claim_C6 (env : Env) (out : String)
    (hout : env.projectsListOutput = .ok out)
    (hall : ∀ l ∈ goSplitNewline out, goContains l CLUSTER_LIST_HEADER = true) :
    (env.confirmCreateProject = .ok false →
      (getGoogleProjectId env).2 = .fail noProjectDeclineMsg) ∧
    (env.confirmCreateProject = .ok true →
      (getGoogleProjectId env).2 = .fail notImplementedMsg) := by
  constructor <;> intro hc <;>
    (unfold getGoogleProjectId
     rw [hout]
     dsimp only
     rw [parseProjectLines_all_header (goSplitNewline out) hall]
     dsimp only
     rw [hc]
     rfl)

theorem gpi_not_panicked {env : Env} {out : String} {ps : List String}
    (hout : env.projectsListOutput = .ok out)
    (hps : parseProjectLines (goSplitNewline out) = some ps) :
    (getGoogleProjectId env).2 ≠ .panicked := by
  intro hcon
  unfold getGoogleProjectId at hcon
  rw [hout] at hcon
  dsimp only at hcon
  rw [hps] at hcon
  dsimp only at hcon
  rcases ps with _ | ⟨p, _ | q⟩ <;>
    dsimp only at hcon <;>
    (repeat' split at hcon) <;>
    simp at hcon

/-- C9: `getGoogleProjectId` terminates normally only when every line of the
project-listing output is either a header line or non-blank: it panics (the
out-of-bounds `fields[0]` index) exactly when the output has a blank
non-header line, rather than returning an error or treating the line as no
project. -/
theorem claim_C9 (env : Env) (out : String)
    (hout : env.projectsListOutput = .ok out) :
    (getGoogleProjectId env).2 = .panicked ↔
      ∃ l ∈ goSplitNewline out, goContains l CLUSTER_LIST_HEADER = false ∧ goFields l = [] := by
  constructor
  · intro hpan
    rcases hparse : parseProjectLines (goSplitNewline out) with _ | ps
    · exact (parseProjectLines_none_iff _).mp hparse
    · exact absurd hpan (gpi_not_panicked hout hparse)
  · intro hex
    have hnone := (parseProjectLines_none_iff _).mpr hex
    unfold getGoogleProjectId
    rw [hout]
    dsimp only
    rw [hnone]

/-- C7: zone and machine-type select prompts only ever present the live
provider-supplied option lists (no built-in fallback), and when the zone
fetch fails at the point the prompt would be shown, the wizard aborts with
the fetch error. -/
theorem claim_C7 (flags : Flags) (env : Env) :
    (∀ e pid, flags.zone = "" → env.googleZones = .error e →
      env.confirmContinue = .ok true →
      (loginStep flags env).2 = .ok () →
      (projectIdStep flags env).2 = .ok pid →
      env.setProjectResult = .ok () →
      (createClusterGKETerraform flags env).outcome = .fail e ∧
      (createClusterGKETerraform flags env).final = none ∧
      ∀ opts, Event.promptSelectZone opts ∉ (createClusterGKETerraform flags env).events) ∧
    (∀ opts, Event.promptSelectZone opts ∈ (createClusterGKETerraform flags env).events →
      env.googleZones = .ok opts) ∧
    (∀ opts, Event.promptSelectMachineType opts ∈ (createClusterGKETerraform flags env).events →
      opts = env.googleMachineTypes) := by
  have hzoneOpts : ∀ opts,
      Event.promptSelectZone opts ∈ (createClusterGKETerraform flags env).events →
      env.googleZones = .ok opts := by
    intro opts he
    rcases run_events_ok flags env _ he with hok | hext
    · exact (show flags.zone = "" ∧ env.googleZones = .ok opts from hok).2
    · exact Bool.noConfusion hext
  refine ⟨?_, hzoneOpts, ?_⟩
  · intro e pid hz hfz hcc hl hpid hset
    have hpsa : (preSA flags env).2 = .fail e := by
      rw [preSA_of_confirmed hcc, Step.tag_snd]
      exact preSAChain_snd_zone_fail hz hfz hl hpid hset
    refine ⟨by rw [run_of_preSA_fail hpsa], by rw [run_of_preSA_fail hpsa], ?_⟩
    intro opts he
    have := hzoneOpts opts he
    rw [hfz] at this
    cases this
  · intro opts he
    rcases run_events_ok flags env _ he with hok | hext
    · exact (show flags.machineType = "" ∧ opts = env.googleMachineTypes from hok).2
    · exact Bool.noConfusion hext

/-- C8: with user-supplied label flag `Foo=Bar,Baz=Qux` and a current OS user
whose sanitized name is `alice`, a completed run appends exactly one final
argument `--labels=foo=bar,baz=qux,created-by=alice`: the synthetic
`created-by` entry comes after the user labels, comma-separated, and the
whole label string is lower-cased. -/
theorem claim_C8 (flags : Flags) (env : Env) (r : Resolved)
    (hl : flags.labels = "Foo=Bar,Baz=Qux")
    (hu : env.currentUser = some "alice")
    (hfin : (createClusterGKETerraform flags env).final = some r) :
    r.args.getLast? = some "--labels=foo=bar,baz=qux,created-by=alice" ∧
    ∃ base, r.args = base ++ ["--labels=foo=bar,baz=qux,created-by=alice"] := by
  obtain ⟨_, _, _, args, hsa, hargs⟩ := run_final_inv hfin
  rw [hl, hu] at hargs
  have h1 : labelsWithCreatedBy "Foo=Bar,Baz=Qux" (some "alice") =
      "Foo=Bar,Baz=Qux,created-by=alice" := rfl
  rw [h1, if_neg (by decide)] at hargs
  have h2 : "--labels=" ++ strToLower "Foo=Bar,Baz=Qux,created-by=alice" =
      "--labels=foo=bar,baz=qux,created-by=alice" := by decide
  rw [h2] at hargs
  refine ⟨?_, args, hargs⟩
  rw [hargs]
  exact List.getLast?_concat _

/-- C10: the prompt errors of the top-level confirmation and of the node-count
inputs are discarded: a failing confirmation prompt leaves `confirm` false so
the wizard returns nil having done nothing, and a failing node-count prompt
leaves the empty string as the value while the run proceeds exactly as if the
prompt had answered the empty string. -/
theorem claim_C10 (flags : Flags) (env : Env) :
    (∀ e, env.confirmContinue = .error e →
      createClusterGKETerraform flags env =
        ⟨[Event.promptConfirmContinue], .ok (), none⟩) ∧
    (∀ e, flags.minNumOfNodes = "" → env.inputMinNodes = .error e →
      (minStep flags env).2 = "" ∧
      createClusterGKETerraform flags env =
        createClusterGKETerraform flags { env with inputMinNodes := .ok "" }) ∧
    (∀ e, flags.maxNumOfNodes = "" → env.inputMaxNodes = .error e →
      (maxStep flags env).2 = "" ∧
      createClusterGKETerraform flags env =
        createClusterGKETerraform flags { env with inputMaxNodes := .ok "" }) := by
  refine ⟨fun e he => run_confirm_error he, fun e hf he => ⟨?_, ?_⟩, fun e hf he => ⟨?_, ?_⟩⟩
  · simp [minStep, hf, he, promptedValue]
  · rcases env with ⟨c, a, po, cc, sp, spr, sn, gz, sz, gm, sm, imn, imx, sal, po2, cs, br, cu⟩
    dsimp only at he
    subst he
    rfl
  · simp [maxStep, hf, he, promptedValue]
  · rcases env with ⟨c, a, po, cc, sp, spr, sn, gz, sz, gm, sm, imn, imx, sal, po2, cs, br, cu⟩
    dsimp only at he
    subst he
    rfl

/-- C1: for every required field of the cluster request (project id, cluster
name, zone, machine type, minimum node count, maximum node count, labels),
if the corresponding flag value is non-empty then no interactive prompt for
that field is issued and the resolved value used by the wizard equals the
flag value verbatim.  (No prompt kind exists at all for the cluster name and
the labels, so for those only the value part is statable.) -/
theorem claim_C1 (flags : Flags) (env : Env) :
    (flags.projectId ≠ "" →
      (∀ e ∈ (createClusterGKETerraform flags env).events,
          e ≠ Event.promptConfirmCreateProject ∧
          ∀ ps, e ≠ Event.promptSelectProject ps) ∧
      (∀ r, (createClusterGKETerraform flags env).final = some r →
          r.projectId = flags.projectId)) ∧
    (flags.clusterName ≠ "" →
      ∀ r, (createClusterGKETerraform flags env).final = some r →
        r.clusterName = flags.clusterName) ∧
    (flags.zone ≠ "" →
      (∀ e ∈ (createClusterGKETerraform flags env).events,
          ∀ opts, e ≠ Event.promptSelectZone opts) ∧
      (∀ r, (createClusterGKETerraform flags env).final = some r →
          r.zone = flags.zone)) ∧
    (flags.machineType ≠ "" →
      (∀ e ∈ (createClusterGKETerraform flags env).events,
          ∀ opts, e ≠ Event.promptSelectMachineType opts) ∧
      (∀ r, (createClusterGKETerraform flags env).final = some r →
          r.machineType = flags.machineType)) ∧
    (flags.minNumOfNodes ≠ "" →
      (∀ e ∈ (createClusterGKETerraform flags env).events,
          e ≠ Event.promptInputMinNodes) ∧
      (∀ r, (createClusterGKETerraform flags env).final = some r →
          r.minNumOfNodes = flags.minNumOfNodes)) ∧
    (flags.maxNumOfNodes ≠ "" →
      (∀ e ∈ (createClusterGKETerraform flags env).events,
          e ≠ Event.promptInputMaxNodes) ∧
      (∀ r, (createClusterGKETerraform flags env).final = some r →
          r.maxNumOfNodes = flags.maxNumOfNodes)) ∧
    (∀ r, (createClusterGKETerraform flags env).final = some r →
        r.labelsResolved = flags.labels) := by
  refine ⟨fun hf => ⟨?_, ?_⟩, fun hf => ?_, fun hf => ⟨?_, ?_⟩, fun hf => ⟨?_, ?_⟩,
          fun hf => ⟨?_, ?_⟩, fun hf => ⟨?_, ?_⟩, ?_⟩
  · intro e he
    constructor
    · intro heq
      subst heq
      rcases run_events_ok flags env _ he with hok | hext
      · exact hf hok
      · exact Bool.noConfusion hext
    · intro ps heq
      subst heq
      rcases run_events_ok flags env _ he with hok | hext
      · exact hf hok
      · exact Bool.noConfusion hext
  · intro r hfin
    obtain ⟨h1, _, _, _, _, _, _⟩ := final_vals hfin
    rw [projectIdStep_of_flag hf] at h1
    dsimp only at h1
    injection h1 with h
    exact h.symm
  · intro r hfin
    obtain ⟨_, h2, _, _, _, _, _⟩ := final_vals hfin
    rw [if_neg hf] at h2
    exact h2
  · intro e he opts heq
    subst heq
    rcases run_events_ok flags env _ he with hok | hext
    · exact hf (show flags.zone = "" ∧ env.googleZones = .ok opts from hok).1
    · exact Bool.noConfusion hext
  · intro r hfin
    obtain ⟨_, _, h3, _, _, _, _⟩ := final_vals hfin
    rw [zoneStep_of_flag hf] at h3
    dsimp only at h3
    injection h3 with h
    exact h.symm
  · intro e he opts heq
    subst heq
    rcases run_events_ok flags env _ he with hok | hext
    · exact hf (show flags.machineType = "" ∧ opts = env.googleMachineTypes from hok).1
    · exact Bool.noConfusion hext
  · intro r hfin
    obtain ⟨_, _, _, h4, _, _, _⟩ := final_vals hfin
    rw [machineTypeStep_of_flag hf] at h4
    dsimp only at h4
    injection h4 with h
    exact h.symm
  · intro e he heq
    subst heq
    rcases run_events_ok flags env _ he with hok | hext
    · exact hf hok
    · exact Bool.noConfusion hext
  · intro r hfin
    obtain ⟨_, _, _, _, h5, _, _⟩ := final_vals hfin
    rw [minStep_of_flag hf] at h5
    exact h5
  · intro e he heq
    subst heq
    rcases run_events_ok flags env _ he with hok | hext
    · exact hf hok
    · exact Bool.noConfusion hext
  · intro r hfin
    obtain ⟨_, _, _, _, _, h6, _⟩ := final_vals hfin
    rw [maxStep_of_flag hf] at h6
    exact h6
  · intro r hfin
    exact (final_vals hfin).2.2.2.2.2.2

/-- Sample flags with every required field supplied. -/
def flagsAll : Flags :=
  ⟨false, "mycluster", "", "", "", "", "n1-standard-2", "3", "5", "proj1", true,
   "us-central1-a", "", ""⟩

/-- Sample flags with no field supplied. -/
def flagsNone : Flags :=
  ⟨false, "", "", "", "", "", "", "", "", "", false, "", "", ""⟩

/-- Sample environment where every prompt and external call succeeds and the
service account already exists. -/
def envBase : Env :=
  ⟨.ok true, .ok (), .ok "PROJECT_ID NAME NUMBER\nproj1 demo 123", .ok true,
   .ok "proj1", .ok (), "Whimsy", .ok ["us-central1-a", "us-east1-b"],
   .ok "us-central1-a", ["n1-standard-2", "n1-standard-4"], .ok "n1-standard-2",
   .ok "3", .ok "5", .ok "jx-mycluster  jx-mycluster@proj1.iam.gserviceaccount.com",
   .ok "resourcemanager.projects.setIamPolicy list", .ok (), fun _ => .ok (),
   some "alice"⟩

/-- The resolved locals of a run of `flagsAll` against `envBase`. -/
def resolvedAll : Resolved :=
  ⟨"proj1", "mycluster", "us-central1-a", "n1-standard-2", "3", "5", "",
   "created-by=alice",
   ["iam", "service-accounts", "list", "--filter", "jx-mycluster",
    "--labels=created-by=alice"]⟩

/-- Environment where the user declines the top-level confirmation. -/
def envDecline : Env := { envBase with confirmContinue := .ok false }

/-- Environment where the service account is absent and the permission
listing lacks the IAM-grant permission. -/
def envNoPerm : Env :=
  { envBase with
      saListOutput := .ok "Listed 0 items."
      permissionsOutput := .ok "no grant permissions here" }

/-- Environment where the service account is absent and the caller holds the
IAM-grant permission. -/
def envCreate : Env := { envBase with saListOutput := .ok "Listed 0 items." }

/-- Environment whose project listing returns only the header line. -/
def envZeroProjects : Env :=
  { envBase with
      projectsListOutput := .ok "PROJECT_ID NAME NUMBER"
      confirmCreateProject := .ok false }

/-- Environment whose zone fetch fails. -/
def envZoneFail : Env := { envBase with googleZones := .error "zone fetch failed" }

/-- Flags with every field but the zone supplied. -/
def flagsNoZone : Flags := { flagsAll with zone := "" }

/-- Flags with the sample label string of the specification. -/
def flagsLabels : Flags := { flagsAll with labels := "Foo=Bar,Baz=Qux" }

/-- The resolved locals of a run of `flagsLabels` against `envBase`. -/
def resolvedLabels : Resolved :=
  ⟨"proj1", "mycluster", "us-central1-a", "n1-standard-2", "3", "5",
   "Foo=Bar,Baz=Qux", "Foo=Bar,Baz=Qux,created-by=alice",
   ["iam", "service-accounts", "list", "--filter", "jx-mycluster",
    "--labels=foo=bar,baz=qux,created-by=alice"]⟩

/-- Environment whose project listing output is entirely empty. -/
def envEmptyList : Env := { envBase with projectsListOutput := .ok "" }

/-- Environment whose top-level confirmation prompt fails. -/
def envConfirmErr : Env := { envBase with confirmContinue := .error () }

/-- Environment whose node-count prompts fail. -/
def envNodesErr : Env :=
  { envBase with
      inputMinNodes := .error ()
      inputMaxNodes := .error () }

theorem claim_C1_witness :
    (createClusterGKETerraform flagsAll envBase).final = some resolvedAll ∧
    resolvedAll.zone = flagsAll.zone ∧
    Event.promptInputMinNodes ∉ (createClusterGKETerraform flagsAll envBase).events := by
  have hfin : (createClusterGKETerraform flagsAll envBase).final = some resolvedAll := by
    decide
  exact ⟨hfin, ((claim_C1 flagsAll envBase).2.2.1 (by decide)).2 resolvedAll hfin,
         fun hmem => ((claim_C1 flagsAll envBase).2.2.2.2.1 (by decide)).1 _ hmem rfl⟩

theorem claim_C2_witness :
    createClusterGKETerraform flagsNone envDecline =
      ⟨[Event.promptConfirmContinue], .ok (), none⟩ :=
  (claim_C2 flagsNone envDecline rfl).1

theorem claim_C3_witness :
    Event.runCmd "gcloud" ["config", "set", "project", "proj1"] ∈
      (createClusterGKETerraform flagsAll envBase).events ∧
    isCreateSACall (Event.runCmd "gcloud" ["config", "set", "project", "proj1"]) = false := by
  refine ⟨by decide, ?_⟩
  exact (claim_C3 flagsAll envBase
    "jx-mycluster  jx-mycluster@proj1.iam.gserviceaccount.com" rfl (by decide)
    _ (by decide)).1

theorem claim_C4_witness :
    (createClusterGKETerraform flagsAll envNoPerm).outcome =
      .fail insufficientPermissionMsg :=
  (claim_C4 flagsAll envNoPerm
    ⟨"proj1", "mycluster", "us-central1-a", "n1-standard-2", "3", "5"⟩
    "no grant permissions here" (by decide) rfl rfl (by decide)).1

theorem claim_C5_witness :
    (createClusterGKETerraform flagsAll envCreate).outcome = .ok () ∧
    Event.runCmd "gcloud" ["iam", "service-accounts", "create", "jx-mycluster"] ∈
      (createClusterGKETerraform flagsAll envCreate).events :=
  ⟨((claim_C5 flagsAll envCreate
      ⟨"proj1", "mycluster", "us-central1-a", "n1-standard-2", "3", "5"⟩
      "resourcemanager.projects.setIamPolicy list" (by decide) rfl rfl (by decide) rfl).1
      (fun _ _ => rfl)).2,
   by decide⟩

theorem claim_C6_witness :
    (getGoogleProjectId envZeroProjects).2 = .fail noProjectDeclineMsg :=
  (claim_C6 envZeroProjects "PROJECT_ID NAME NUMBER" rfl (by decide)).1 rfl

theorem claim_C7_witness :
    (createClusterGKETerraform flagsNoZone envZoneFail).outcome =
      .fail "zone fetch failed" :=
  ((claim_C7 flagsNoZone envZoneFail).1 "zone fetch failed" "proj1"
    rfl rfl rfl rfl rfl rfl).1

theorem claim_C8_witness :
    resolvedLabels.args.getLast? =
      some "--labels=foo=bar,baz=qux,created-by=alice" :=
  (claim_C8 flagsLabels envBase resolvedLabels rfl rfl (by decide)).1

theorem claim_C9_witness :
    (getGoogleProjectId envEmptyList).2 = .panicked :=
  (claim_C9 envEmptyList "" rfl).mpr ⟨"", by decide, by decide, rfl⟩

theorem claim_C10_witness :
    createClusterGKETerraform flagsNone envConfirmErr =
      ⟨[Event.promptConfirmContinue], .ok (), none⟩ ∧
    (minStep flagsNone envNodesErr).2 = "" ∧
    (maxStep flagsNone envNodesErr).2 = "" :=
  ⟨(claim_C10 flagsNone envConfirmErr).1 () rfl,
   ((claim_C10 flagsNone envNodesErr).2.1 () rfl rfl).1,
   ((claim_C10 flagsNone envNodesErr).2.2 () rfl rfl).1⟩

end GKETerraform
